import Mathlib

/-!
Verification of the proactive message scheduling subsystem
(`backend/active_partner_system.py`, class `ConversationInitiator`).

The embedding is shallow:
- SQLite tables become lists of records inside a `DB` structure; the
  `AUTOINCREMENT` id column becomes an explicit `nextQueueId` counter.
- ISO-8601 timestamp strings become natural numbers counting seconds since a
  fixed midnight epoch (the epoch day is a Monday, so Python's
  `weekday() == 6` means `day % 7 = 6`).  Lexicographic comparison of
  ISO strings of the fixed format the code writes agrees with numeric
  comparison of these values, and SQLite's `DATE(x)` is `x / 86400`.
- Python exceptions become `Except Err`; external collaborators
  (schedule / task / goal / journal providers) are an `Env` record whose
  fields are `Except`-valued, modelling calls that may raise.
- `"HH:MM"` wall-clock strings are kept as strings; `strptime(s, "%H:%M")`
  and the `f"{h:02d}:{m:02d}"` formatting are modelled character by character.
- SQLite `LIKE '%pat%'` on the serialized JSON metadata column is modelled as
  substring search over the characters (the patterns the code builds contain
  no letters whose ASCII case could matter for LIKE's case-insensitivity,
  other than the fixed lowercase key names it also writes, and no wildcards).
-/

set_option linter.unusedVariables false

namespace PartnerAI

/-- Seconds since a fixed midnight epoch; stands for a `datetime` /
its `isoformat()` string.  Day 0 of the epoch is a Monday. -/
abbrev Timestamp := Nat

/-- SQLite `DATE(t)`: the calendar day of a timestamp. -/
def dateOf (t : Timestamp) : Nat := t / 86400

/-- `t.time()` at second granularity: seconds since local midnight. -/
def secOfDay (t : Timestamp) : Nat := t % 86400

/-- `t.hour`. -/
def hourOf (t : Timestamp) : Nat := t % 86400 / 3600

/-- `t.minute`. -/
def minuteOf (t : Timestamp) : Nat := t % 86400 % 3600 / 60

/-- Python `t.weekday()` (Monday = 0 .. Sunday = 6); epoch day 0 is a Monday. -/
def weekday (t : Timestamp) : Nat := dateOf t % 7

/-- `datetime.combine(t.date(), time(h, m))`. -/
def combine (t : Timestamp) (h m : Nat) : Timestamp :=
  86400 * dateOf t + (h * 3600 + m * 60)

/-- `abs((a - b).total_seconds())`. -/
def timeDiffSec (a b : Timestamp) : Nat := ((a : Int) - (b : Int)).natAbs

/-- Python exceptions that the modelled code can raise: `TypeError`
(e.g. `strptime(None, ...)`), `ValueError` (malformed time string), or a
failure raised by an external collaborator call. -/
inductive Err where
  | typeError
  | valueError
  | upstream (msg : String)
deriving DecidableEq

instance {ε α : Type} [DecidableEq ε] [DecidableEq α] : DecidableEq (Except ε α) := by
  intro x y
  cases x <;> cases y
  case error.error a b =>
    exact if h : a = b then .isTrue (by rw [h]) else .isFalse (fun hc => h (by injection hc))
  case error.ok a b => exact .isFalse (fun hc => by injection hc)
  case ok.error a b => exact .isFalse (fun hc => by injection hc)
  case ok.ok a b =>
    exact if h : a = b then .isTrue (by rw [h]) else .isFalse (fun hc => h (by injection hc))

/-- The metadata dictionaries the generators attach to a message. -/
inductive Meta where
  | empty
  | taskId (id : Nat)
  | goalId (id : Nat)
  | habitId (id : Option Nat)
deriving DecidableEq

/-- `json.dumps` on the metadata dictionaries above (Python's default
separators put one space after the colon). -/
def jsonDumps : Meta → String
  | .empty => "\x7b\x7d"
  | .taskId i => "\x7b\"task_id\": " ++ toString i ++ "\x7d"
  | .goalId i => "\x7b\"goal_id\": " ++ toString i ++ "\x7d"
  | .habitId (some i) => "\x7b\"habit_id\": " ++ toString i ++ "\x7d"
  | .habitId none => "\x7b\"habit_id\": null\x7d"

/-- Does `s` start with `p`? (character lists). -/
def startsWithChars : List Char → List Char → Bool
  | [], _ => true
  | _ :: _, [] => false
  | a :: as, b :: bs => a == b && startsWithChars as bs

/-- Does `p` occur as a contiguous substring of `s`?  Models SQLite
`s LIKE '%' || p || '%'` for the patterns the code builds. -/
def containsChars (p : List Char) : List Char → Bool
  | [] => startsWithChars p []
  | c :: rest => startsWithChars p (c :: rest) || containsChars p rest

/-- String-level wrapper for the LIKE '%p%' check. -/
def likeContains (p s : String) : Bool := containsChars p.data s.data

/-- `f"{n:02d}"`. -/
def pad2 (n : Nat) : String := if n < 10 then "0" ++ toString n else toString n

/-- `f"{h:02d}:{m:02d}"`. -/
def formatHM (h m : Nat) : String := pad2 h ++ ":" ++ pad2 m

/-- Value of a decimal digit character. -/
def digitVal (c : Char) : Option Nat :=
  if '0' ≤ c ∧ c ≤ '9' then some (c.toNat - '0'.toNat) else none

/-- Value of a 1- or 2-digit decimal numeral. -/
def digitsVal : List Char → Option Nat
  | [a] => digitVal a
  | [a, b] =>
    match digitVal a, digitVal b with
    | some x, some y => some (x * 10 + y)
    | _, _ => none
  | _ => none

/-- Combine parsed hour/minute fields, enforcing `strptime`'s field ranges. -/
def mkHM (oh om : Option Nat) : Option (Nat × Nat) :=
  match oh, om with
  | some h, some m => if h ≤ 23 ∧ m ≤ 59 then some (h, m) else none
  | _, _ => none

/-- `datetime.strptime(s, "%H:%M")`: 1-2 digits, a colon, 1-2 digits, with
hour in 0..23 and minute in 0..59; `none` models the `ValueError` raised on
any other input. -/
def parseHM (s : String) : Option (Nat × Nat) :=
  match s.data with
  | [a, ':', c] => mkHM (digitsVal [a]) (digitsVal [c])
  | [a, ':', c, d] => mkHM (digitsVal [a]) (digitsVal [c, d])
  | [a, b, ':', c] => mkHM (digitsVal [a, b]) (digitsVal [c])
  | [a, b, ':', c, d] => mkHM (digitsVal [a, b]) (digitsVal [c, d])
  | _ => none

/-- `strptime` applied to a value read from a dict that may hold `None`
(raising `TypeError`) or a malformed string (raising `ValueError`). -/
def strptimeHM : Option String → Except Err (Nat × Nat)
  | none => .error Err.typeError
  | some s =>
    match parseHM s with
    | none => .error Err.valueError
    | some hm => .ok hm

/-- A row of the `ai_messages_queue` table. -/
structure QueuedMessage where
  id : Nat
  user_id : String
  message_type : String
  priority : Nat
  message_content : String
  scheduled_time : Timestamp
  sent : Bool
  sent_at : Option Timestamp
  acknowledged : Bool
  acknowledged_at : Option Timestamp
  metadata : String
  created_at : Timestamp
deriving DecidableEq

/-- A row of the `user_activity_patterns` table (`user_id` is the key of the
association list holding these rows). -/
structure PatternRow where
  typical_morning_time : Option String
  typical_evening_time : Option String
  typical_work_hours : Option String
  preferred_reminder_times : Option String
  quiet_hours_start : Option String
  quiet_hours_end : Option String
  last_updated : Option Timestamp
deriving DecidableEq

/-- The SQLite database state the `ConversationInitiator` reads and writes:
the message queue (with its AUTOINCREMENT counter), the activity-pattern
table keyed by `user_id`, and the `conversations` table restricted to the
two columns the code reads, `(user_id, timestamp)`. -/
structure DB where
  queue : List QueuedMessage
  nextQueueId : Nat
  patterns : List (String × PatternRow)
  conversations : List (String × Timestamp)
deriving DecidableEq

/-- A row of the `tasks` table as returned by
`ScheduleManager.get_pending_tasks`, restricted to the fields the
initiator reads.  `due_date` is the parsed calendar day
(`datetime.fromisoformat(task['due_date']).date()`); `none` models a
missing/NULL due date (falsy in `if task.get('due_date')`). -/
structure Task where
  id : Nat
  title : String
  priority : String
  due_date : Option Nat
deriving DecidableEq

/-- A row returned by `ScheduleManager.get_today_schedule`, restricted to the
fields the initiator reads. -/
structure Schedule where
  title : String
  start_time : Timestamp
deriving DecidableEq

/-- A row returned by `GoalManager.get_active_goals`, restricted to the
fields the initiator reads. -/
structure Goal where
  id : Nat
  title : String
  progress_percentage : Int
deriving DecidableEq

/-- The external collaborators of the initiator, as observed during one
sweep/generation: each provider call either returns data or raises.
`journalEntry` is the truthiness of `journal_sys.get_journal_entry(user_id)`;
`greetingChoice` determines `random.choice(greetings)`. -/
structure Env where
  schedules : Except Err (List Schedule)
  pendingTasks : Except Err (List Task)
  activeGoals : Except Err (List Goal)
  journalEntry : Except Err Bool
  greetingChoice : Nat

/-- The dict produced by a message generator:
`{"type", "priority", "content", "requires_response"(, "metadata")}`. -/
structure GenMsg where
  type : String
  priority : Nat
  content : String
  requires_response : Bool
  metadata : Option Meta
deriving DecidableEq

/-- The dict returned by `learn_user_patterns` (both branches carry exactly
these two keys). -/
structure LearnResult where
  typical_morning_time : String
  typical_evening_time : String
deriving DecidableEq

/-- The dict `get_user_patterns` produces.  When no row exists the code
returns `_get_default_patterns()`, a dict without quiet-hour keys, and every
later read uses `.get(...)`, so a missing key and a NULL column both appear
as `none` here — except that the defaults dict maps the two typical times to
the strings `"08:00"` / `"20:00"`. -/
structure PatternsView where
  typical_morning_time : Option String
  typical_evening_time : Option String
  quiet_hours_start : Option String
  quiet_hours_end : Option String
deriving DecidableEq

/-- `MessagePriority` enum. -/
inductive MessagePriority where
  | CRITICAL
  | HIGH
  | MEDIUM
  | LOW
deriving DecidableEq

/-- `.value` of the enum members. -/
def MessagePriority.value : MessagePriority → Nat
  | .CRITICAL => 1
  | .HIGH => 2
  | .MEDIUM => 3
  | .LOW => 4

/-- `SELECT ... FROM user_activity_patterns WHERE user_id = ?` (PK lookup). -/
def findPattern (pats : List (String × PatternRow)) (user_id : String) : Option PatternRow :=
  (pats.find? (fun p => p.1 == user_id)).map (fun p => p.2)

/-- `INSERT OR REPLACE INTO user_activity_patterns (user_id,
typical_morning_time, typical_evening_time, last_updated) VALUES ...`:
replaces the whole row for the key (columns not named revert to NULL). -/
def upsertPattern (pats : List (String × PatternRow)) (user_id : String) (row : PatternRow) :
    List (String × PatternRow) :=
  if pats.any (fun p => p.1 == user_id) then
    pats.map (fun p => if p.1 == user_id then (user_id, row) else p)
  else
    pats ++ [(user_id, row)]

/-- `ConversationInitiator.get_user_patterns`. -/
def get_user_patterns (db : DB) (user_id : String) : PatternsView :=
  match findPattern db.patterns user_id with
  | none =>
    { typical_morning_time := some "08:00", typical_evening_time := some "20:00",
      quiet_hours_start := none, quiet_hours_end := none }
  | some row =>
    { typical_morning_time := row.typical_morning_time,
      typical_evening_time := row.typical_evening_time,
      quiet_hours_start := row.quiet_hours_start,
      quiet_hours_end := row.quiet_hours_end }

/-- The `conversations` timestamps `learn_user_patterns` analyses: the
user's rows in the trailing 30 days (`timestamp >= now - timedelta(days=30)`;
the `ORDER BY` clause does not affect the averages computed from them). -/
def conversationWindow (db : DB) (now : Timestamp) (user_id : String) : List Timestamp :=
  (db.conversations.filter
    (fun r => r.1 == user_id && decide (now - 30 * 86400 ≤ r.2))).map (fun r => r.2)

/-- `ConversationInitiator._calculate_average_time`: floor of the mean of
`t.hour * 60 + t.minute` over the given times, rendered `"HH:MM"`. -/
def calculate_average_time (times : List Timestamp) : String :=
  match times with
  | [] => "08:00"
  | _ =>
    let total_minutes := (times.map (fun t => hourOf t * 60 + minuteOf t)).sum
    let avg_minutes := total_minutes / times.length
    formatHM (avg_minutes / 60) (avg_minutes % 60)

/-- `ConversationInitiator.learn_user_patterns`.  Returns the result dict and
the updated database; with no conversation history it returns the defaults
without touching the store (`return self._get_default_patterns()`). -/
def learn_user_patterns (db : DB) (now : Timestamp) (user_id : String) : LearnResult × DB :=
  let timestamps := conversationWindow db now user_id
  match timestamps with
  | [] => ({ typical_morning_time := "08:00", typical_evening_time := "20:00" }, db)
  | _ =>
    let morning_times := timestamps.filter (fun t => decide (6 ≤ hourOf t ∧ hourOf t ≤ 11))
    let evening_times := timestamps.filter (fun t => decide (18 ≤ hourOf t ∧ hourOf t ≤ 23))
    let typical_morning :=
      if morning_times.isEmpty then "08:00" else calculate_average_time morning_times
    let typical_evening :=
      if evening_times.isEmpty then "20:00" else calculate_average_time evening_times
    let row : PatternRow :=
      { typical_morning_time := some typical_morning,
        typical_evening_time := some typical_evening,
        typical_work_hours := none, preferred_reminder_times := none,
        quiet_hours_start := none, quiet_hours_end := none,
        last_updated := some now }
    ({ typical_morning_time := typical_morning, typical_evening_time := typical_evening },
     { db with patterns := upsertPattern db.patterns user_id row })

/-- `ConversationInitiator.queue_message`: inserts a row (with
`sent = acknowledged = 0`, `scheduled_time` defaulting to `now`, metadata
`json.dumps(metadata or {})`) and returns `lastrowid`. -/
def queue_message (db : DB) (now : Timestamp) (user_id message_type : String)
    (priority : Nat) (content : String) (scheduled_time : Option Timestamp)
    (metadata : Option Meta) : Nat × DB :=
  let st := scheduled_time.getD now
  let row : QueuedMessage :=
    { id := db.nextQueueId, user_id := user_id, message_type := message_type,
      priority := priority, message_content := content, scheduled_time := st,
      sent := false, sent_at := none, acknowledged := false, acknowledged_at := none,
      metadata := jsonDumps (metadata.getD Meta.empty), created_at := now }
  (db.nextQueueId, { db with queue := db.queue ++ [row], nextQueueId := db.nextQueueId + 1 })

/-- The `ORDER BY priority ASC, scheduled_time ASC` ordering of
`get_pending_messages`. -/
def rowLE (a b : QueuedMessage) : Prop :=
  a.priority < b.priority ∨ (a.priority = b.priority ∧ a.scheduled_time ≤ b.scheduled_time)

instance : DecidableRel rowLE := fun a b => by unfold rowLE; exact inferInstance

instance : IsTotal QueuedMessage rowLE :=
  ⟨fun a b => by
    unfold rowLE
    rcases Nat.lt_trichotomy a.priority b.priority with h | h | h
    · exact Or.inl (Or.inl h)
    · rcases Nat.le_total a.scheduled_time b.scheduled_time with h' | h'
      · exact Or.inl (Or.inr ⟨h, h'⟩)
      · exact Or.inr (Or.inr ⟨h.symm, h'⟩)
    · exact Or.inr (Or.inl h)⟩

instance : IsTrans QueuedMessage rowLE :=
  ⟨fun a b c hab hbc => by
    unfold rowLE at *
    rcases hab with h | ⟨he, hs⟩
    · rcases hbc with h' | ⟨he', _⟩
      · exact Or.inl (h.trans h')
      · exact Or.inl (he' ▸ h)
    · rcases hbc with h' | ⟨he', hs'⟩
      · exact Or.inl (he ▸ h')
      · exact Or.inr ⟨he.trans he', hs.trans hs'⟩⟩

/-- The dict built for each row returned by `get_pending_messages`.  The
`metadata` field is kept in its serialized form (the code applies
`json.loads`, the inverse of the `json.dumps` used at insertion). -/
structure PendingView where
  id : Nat
  message_type : String
  priority : Nat
  content : String
  scheduled_time : Timestamp
  metadata : String
deriving DecidableEq

/-- Row-to-dict projection used by `get_pending_messages`. -/
def toPendingView (r : QueuedMessage) : PendingView :=
  { id := r.id, message_type := r.message_type, priority := r.priority,
    content := r.message_content, scheduled_time := r.scheduled_time,
    metadata := r.metadata }

/-- `ConversationInitiator.get_pending_messages`: the user's unsent rows with
`scheduled_time <= now`, ordered by `(priority ASC, scheduled_time ASC)`. -/
def get_pending_messages (db : DB) (now : Timestamp) (user_id : String) : List PendingView :=
  (List.insertionSort rowLE
    (db.queue.filter
      (fun r => r.user_id == user_id && !r.sent && decide (r.scheduled_time ≤ now)))).map
  toPendingView

/-- `ConversationInitiator.mark_message_sent`:
`UPDATE ai_messages_queue SET sent = 1, sent_at = now WHERE id = ?`;
returns `rowcount > 0`. -/
def mark_message_sent (db : DB) (now : Timestamp) (message_id : Nat) : Bool × DB :=
  let queue' := db.queue.map (fun r =>
    if r.id == message_id then { r with sent := true, sent_at := some now } else r)
  (decide (0 < db.queue.countP (fun r => r.id == message_id)), { db with queue := queue' })

/-- `ConversationInitiator.mark_message_acknowledged`:
`UPDATE ai_messages_queue SET acknowledged = 1, acknowledged_at = now WHERE id = ?`;
returns `rowcount > 0`. -/
def mark_message_acknowledged (db : DB) (now : Timestamp) (message_id : Nat) : Bool × DB :=
  let queue' := db.queue.map (fun r =>
    if r.id == message_id then { r with acknowledged := true, acknowledged_at := some now } else r)
  (decide (0 < db.queue.countP (fun r => r.id == message_id)), { db with queue := queue' })

/-- `SELECT COUNT(*) FROM ai_messages_queue WHERE user_id = ? AND sent = 1
AND sent_at >= now - 1 hour` (a NULL `sent_at` never satisfies `>=`). -/
def recentSentCount (db : DB) (user_id : String) (now : Timestamp) : Nat :=
  (db.queue.filter (fun r =>
    r.user_id == user_id && r.sent &&
      (match r.sent_at with
       | some t => decide (now - 3600 ≤ t)
       | none => false))).length

/-- The user-set quiet-hours rule inside `should_send_message_now`: if both
bounds are truthy strings, parse them with `strptime "%H:%M"` (which may
raise) and reject when `quiet_start <= now.time() <= quiet_end`. -/
def quietHoursReject (patterns : PatternsView) (now : Timestamp) : Except Err Bool :=
  match patterns.quiet_hours_start, patterns.quiet_hours_end with
  | some qs, some qe =>
    if qs.isEmpty || qe.isEmpty then .ok false
    else
      match parseHM qs, parseHM qe with
      | some (sh, sm), some (eh, em) =>
        .ok (decide (sh * 3600 + sm * 60 ≤ secOfDay now ∧ secOfDay now ≤ eh * 3600 + em * 60))
      | _, _ => .error Err.valueError
  | _, _ => .ok false

/-- `ConversationInitiator.should_send_message_now`.  Rules in source order:
hard window (hour < 6 or >= 23), user quiet hours, trailing-hour rate limit
(>= 3 sent), then the ±15-minute window around `scheduled_time` if one was
supplied. -/
def should_send_message_now (db : DB) (now : Timestamp) (user_id message_type : String)
    (scheduled_time : Option Timestamp) : Except Err Bool :=
  let current_hour := hourOf now
  if current_hour < 6 ∨ 23 ≤ current_hour then .ok false
  else
    let patterns := get_user_patterns db user_id
    match quietHoursReject patterns now with
    | .error e => .error e
    | .ok true => .ok false
    | .ok false =>
      if 3 ≤ recentSentCount db user_id now then .ok false
      else
        match scheduled_time with
        | some scheduled => if timeDiffSec scheduled now ≤ 900 then .ok true else .ok false
        | none => .ok true

/-- The fixed greeting pool of `generate_morning_checkin`. -/
def greetings : List String :=
  ["おはようございます!",
   "おはようございます! 今日も良い一日にしましょう。",
   "おはよう! 新しい一日の始まりです。"]

/-- `random.choice(greetings)`, driven by the environment's choice. -/
def morningGreeting (choice : Nat) : String :=
  greetings.getD (choice % greetings.length) ""

/-- The schedule paragraph of the morning check-in. -/
def scheduleSection (schedules : List Schedule) : String :=
  match schedules with
  | [] => "📅 今日は予定のない日ですね\n\n"
  | first :: rest =>
    "📅 今日は" ++ toString (first :: rest : List Schedule).length ++ "件の予定があります\n" ++
      "最初の予定: " ++ formatHM (hourOf first.start_time) (minuteOf first.start_time) ++
      " - " ++ first.title ++ "\n\n"

/-- The urgent-tasks paragraph of the morning check-in. -/
def urgentTaskSection (urgent_tasks : List Task) : String :=
  match urgent_tasks with
  | [] => ""
  | _ =>
    "✅ 今日取り組むべきこと:\n" ++
      String.join (urgent_tasks.map (fun t => "・" ++ t.title ++ "\n")) ++ "\n"

/-- The goal-progress line of the morning check-in. -/
def goalSection (goals : List Goal) : String :=
  match goals with
  | [] => ""
  | goal :: _ =>
    if goal.progress_percentage > 0 then
      "🎯 「" ++ goal.title ++ "」: " ++ toString goal.progress_percentage ++ "%\n"
    else ""

/-- `ConversationInitiator.generate_morning_checkin` (provider calls in
source order: today's schedule, pending tasks, active goals). -/
def generate_morning_checkin (user_id : String) (env : Env) : Except Err GenMsg :=
  match env.schedules with
  | .error e => .error e
  | .ok schedules =>
    match env.pendingTasks with
    | .error e => .error e
    | .ok tasks =>
      let urgent_tasks := (tasks.filter (fun t => t.priority == "high")).take 2
      match env.activeGoals with
      | .error e => .error e
      | .ok goals =>
        let message :=
          morningGreeting env.greetingChoice ++ "\n\n" ++ scheduleSection schedules ++
            urgentTaskSection urgent_tasks ++ goalSection goals ++
            "\n今日は何に挑戦しますか? 応援しています! 💪"
        .ok { type := "morning_checkin", priority := MessagePriority.MEDIUM.value,
              content := message, requires_response := false, metadata := none }

/-- `ConversationInitiator.generate_evening_reflection`: a light
`evening_simple` note when today's journal entry exists, otherwise the
`evening_reflection` prompt. -/
def generate_evening_reflection (user_id : String) (env : Env) : Except Err GenMsg :=
  match env.journalEntry with
  | .error e => .error e
  | .ok true =>
    .ok { type := "evening_simple", priority := MessagePriority.LOW.value,
          content := "今日もお疲れ様でした! ゆっくり休んでくださいね😊",
          requires_response := false, metadata := none }
  | .ok false =>
    match env.schedules with
    | .error e => .error e
    | .ok schedules =>
      let message :=
        "今日も1日お疲れ様でした! ✨\n\n" ++
          (match schedules with
           | [] => ""
           | first :: rest =>
             "今日は" ++ toString (first :: rest : List Schedule).length ++
               "件の予定をこなしましたね。\n\n") ++
          "少しだけ今日を振り返りませんか?\n\n📝 今日の出来事:\n・うまくいったこと\n" ++
          "・学んだこと\n・感謝したいこと\n\n何でも大丈夫です。気軽に話してください😊"
      .ok { type := "evening_reflection", priority := MessagePriority.HIGH.value,
            content := message, requires_response := true, metadata := none }

/-- `ConversationInitiator.generate_task_reminder` (pure given the task row
and the current date). -/
def generate_task_reminder (now : Timestamp) (user_id : String) (task : Task) : GenMsg :=
  let urgencyEmoji : String × String :=
    match task.due_date with
    | some due =>
      let days_left : Int := (due : Int) - (dateOf now : Int)
      if days_left = 0 then ("今日が期限", "⚠️")
      else if days_left = 1 then ("明日が期限", "📌")
      else ("あと" ++ toString days_left ++ "日", "📅")
    | none => ("期限なし", "✅")
  let message :=
    urgencyEmoji.2 ++ " タスクのリマインダーです\n\n「" ++ task.title ++ "」\n期限: " ++
      urgencyEmoji.1 ++ "\n\n" ++
      (if task.priority == "high" then "優先度が高いタスクです。\n" else "") ++
      "取り組みましょうか?"
  { type := "task_reminder", priority := MessagePriority.HIGH.value, content := message,
    requires_response := true, metadata := some (Meta.taskId task.id) }

/-- `ConversationInitiator.generate_weekly_review_prompt`. -/
def generate_weekly_review_prompt (user_id : String) : GenMsg :=
  { type := "weekly_review", priority := MessagePriority.HIGH.value,
    content := "🎉 今週もお疲れ様でした!\n\n1週間を振り返ってみませんか?\n\n" ++
      "以下について教えてください:\n1. 今週の一番の成果は?\n2. 新しく学んだことは?\n" ++
      "3. 来週改善したいことは?\n\n振り返ることで、成長を実感できますよ😊",
    requires_response := true, metadata := none }

/-- `SELECT id FROM ai_messages_queue WHERE user_id = ? AND message_type = ?
AND DATE(scheduled_time) = DATE(now)`, as a boolean existence check. -/
def existsTodayOfType (db : DB) (user_id message_type : String) (now : Timestamp) : Bool :=
  db.queue.any (fun r =>
    r.user_id == user_id && r.message_type == message_type &&
      decide (dateOf r.scheduled_time = dateOf now))

/-- The evening existence check: `message_type IN ('evening_reflection',
'evening_simple')` scheduled today. -/
def existsEveningToday (db : DB) (user_id : String) (now : Timestamp) : Bool :=
  db.queue.any (fun r =>
    r.user_id == user_id &&
      (r.message_type == "evening_reflection" || r.message_type == "evening_simple") &&
      decide (dateOf r.scheduled_time = dateOf now))

/-- The middle of the pattern `'%"task_id": <id>%'` the sweep feeds to
`LIKE` when looking for an existing reminder of a task. -/
def taskLikePattern (task_id : Nat) : String := "\"task_id\": " ++ toString task_id

/-- The task-reminder existence check: a `task_reminder` row scheduled today
whose serialized metadata matches `LIKE '%"task_id": <id>%'`. -/
def existsTaskReminderToday (db : DB) (user_id : String) (task_id : Nat)
    (now : Timestamp) : Bool :=
  db.queue.any (fun r =>
    r.user_id == user_id && r.message_type == "task_reminder" &&
      likeContains (taskLikePattern task_id) r.metadata &&
      decide (dateOf r.scheduled_time = dateOf now))

/-- Morning block of `check_and_queue_daily_messages`: parse the user's
typical morning time (this is where `strptime` can raise), then enqueue a
morning check-in at `morning_dt` unless one is already scheduled today. -/
def morningCategory (user_id : String) (patterns : PatternsView) (env : Env)
    (now : Timestamp) (db : DB) : Except Err Unit × DB :=
  match strptimeHM patterns.typical_morning_time with
  | .error e => (.error e, db)
  | .ok (h, m) =>
    let morning_dt := combine now h m
    if existsTodayOfType db user_id "morning_checkin" now then (.ok (), db)
    else
      match generate_morning_checkin user_id env with
      | .error e => (.error e, db)
      | .ok msg =>
        (.ok (), (queue_message db now user_id msg.type msg.priority msg.content
          (some morning_dt) none).2)

/-- Evening block of `check_and_queue_daily_messages`. -/
def eveningCategory (user_id : String) (patterns : PatternsView) (env : Env)
    (now : Timestamp) (db : DB) : Except Err Unit × DB :=
  match strptimeHM patterns.typical_evening_time with
  | .error e => (.error e, db)
  | .ok (h, m) =>
    let evening_dt := combine now h m
    if existsEveningToday db user_id now then (.ok (), db)
    else
      match generate_evening_reflection user_id env with
      | .error e => (.error e, db)
      | .ok msg =>
        (.ok (), (queue_message db now user_id msg.type msg.priority msg.content
          (some evening_dt) none).2)

/-- Weekly block of `check_and_queue_daily_messages`: on Sundays, enqueue the
weekly review at 18:00 today unless one is already scheduled today. -/
def weeklyCategory (user_id : String) (now : Timestamp) (db : DB) : Except Err Unit × DB :=
  if weekday now = 6 then
    let review_time := combine now 18 0
    if existsTodayOfType db user_id "weekly_review" now then (.ok (), db)
    else
      let msg := generate_weekly_review_prompt user_id
      (.ok (), (queue_message db now user_id msg.type msg.priority msg.content
        (some review_time) none).2)
  else (.ok (), db)

/-- The task loop of `check_and_queue_daily_messages`: for each pending task
whose due date is 0 or 1 days away, enqueue a reminder at 10:00 today unless
the LIKE-based existence check finds one.  Nothing inside the loop raises. -/
def taskLoop (user_id : String) (now : Timestamp) : List Task → DB → DB
  | [], db => db
  | task :: rest, db =>
    match task.due_date with
    | none => taskLoop user_id now rest db
    | some due =>
      let days_left : Int := (due : Int) - (dateOf now : Int)
      if 0 ≤ days_left ∧ days_left ≤ 1 then
        if existsTaskReminderToday db user_id task.id now then taskLoop user_id now rest db
        else
          let reminder_msg := generate_task_reminder now user_id task
          let reminder_time := combine now 10 0
          taskLoop user_id now rest
            (queue_message db now user_id reminder_msg.type reminder_msg.priority
              reminder_msg.content (some reminder_time) reminder_msg.metadata).2
      else taskLoop user_id now rest db

/-- Task block of `check_and_queue_daily_messages`: fetch the pending tasks
(which may raise) and run the loop. -/
def taskCategory (user_id : String) (env : Env) (now : Timestamp) (db : DB) :
    Except Err Unit × DB :=
  match env.pendingTasks with
  | .error e => (.error e, db)
  | .ok tasks => (.ok (), taskLoop user_id now tasks db)

/-- `ConversationInitiator.check_and_queue_daily_messages` (the daily sweep).
The four blocks run in source order; each enqueue is committed on its own, so
an exception leaves earlier blocks' inserts in place, skips the remaining
blocks, and propagates to the caller. -/
def check_and_queue_daily_messages (user_id : String) (env : Env) (now : Timestamp)
    (db : DB) : Except Err Unit × DB :=
  let patterns := get_user_patterns db user_id
  match morningCategory user_id patterns env now db with
  | (.error e, db1) => (.error e, db1)
  | (.ok _, db1) =>
    match eveningCategory user_id patterns env now db1 with
    | (.error e, db2) => (.error e, db2)
    | (.ok _, db2) =>
      match weeklyCategory user_id now db2 with
      | (.error e, db3) => (.error e, db3)
      | (.ok _, db3) => taskCategory user_id env now db3

/-- Sweep steps only append to the queue and leave the other tables alone;
this is the frame fact the idempotence proof threads through the blocks. -/
def Grows (db db' : DB) : Prop :=
  (∃ l, db'.queue = db.queue ++ l) ∧ db'.patterns = db.patterns ∧
    db'.conversations = db.conversations

/-- The `(priority ASC, scheduled_time ASC)` order on the returned dicts. -/
def pendingLE (a b : PendingView) : Prop :=
  a.priority < b.priority ∨ (a.priority = b.priority ∧ a.scheduled_time ≤ b.scheduled_time)

/-- The row the sweep's task block inserts for a due task (given the id the
AUTOINCREMENT counter will assign). -/
def taskReminderRow (user_id : String) (now : Timestamp) (task : Task) (id : Nat) :
    QueuedMessage :=
  { id := id, user_id := user_id, message_type := "task_reminder",
    priority := MessagePriority.HIGH.value,
    message_content := (generate_task_reminder now user_id task).content,
    scheduled_time := combine now 10 0,
    sent := false, sent_at := none, acknowledged := false, acknowledged_at := none,
    metadata := jsonDumps (Meta.taskId task.id), created_at := now }

/-! Concrete scenario data used by witnesses and counterexamples.
All timestamps sit on epoch day 0 (a Monday, so not a Sunday) unless noted;
`36000 = 10:00`. -/

/-- A freshly initialised store. -/
def exEmptyDB : DB := { queue := [], nextQueueId := 1, patterns := [], conversations := [] }

/-- An already-sent queue row with the given id and send time. -/
def exSentRow (id : Nat) (t : Timestamp) : QueuedMessage :=
  { id := id, user_id := "u", message_type := "encouragement", priority := 3,
    message_content := "hi", scheduled_time := t, sent := true, sent_at := some t,
    acknowledged := false, acknowledged_at := none, metadata := "\x7b\x7d", created_at := t }

/-- Three sends in the trailing hour before 10:00 (at t-50m, t-30m, t-5m). -/
def exRateDB : DB :=
  { queue := [exSentRow 1 33000, exSentRow 2 34200, exSentRow 3 35700],
    nextQueueId := 4, patterns := [], conversations := [] }

/-- A pending task with id 5, due on epoch day 0. -/
def exTask5 : Task := { id := 5, title := "提出物", priority := "high", due_date := some 0 }

/-- An environment where every provider call succeeds and task 5 is due. -/
def exEnvOk : Env :=
  { schedules := .ok [], pendingTasks := .ok [exTask5], activeGoals := .ok [],
    journalEntry := .ok false, greetingChoice := 0 }

/-- The same environment with the schedule provider raising. -/
def exEnvFail : Env := { exEnvOk with schedules := .error (Err.upstream "schedule provider down") }

/-- A `task_reminder` queued today whose metadata names task 51. -/
def exRow51 : QueuedMessage :=
  { id := 1, user_id := "u", message_type := "task_reminder", priority := 2,
    message_content := "r51", scheduled_time := 36000, sent := false, sent_at := none,
    acknowledged := false, acknowledged_at := none,
    metadata := jsonDumps (Meta.taskId 51), created_at := 36000 }

/-- A morning check-in already scheduled today. -/
def exMorningRow : QueuedMessage :=
  { id := 2, user_id := "u", message_type := "morning_checkin", priority := 3,
    message_content := "m", scheduled_time := 8 * 3600, sent := false, sent_at := none,
    acknowledged := false, acknowledged_at := none, metadata := "\x7b\x7d",
    created_at := 36000 }

/-- An evening reflection already scheduled today. -/
def exEveningRow : QueuedMessage :=
  { id := 3, user_id := "u", message_type := "evening_reflection", priority := 2,
    message_content := "e", scheduled_time := 20 * 3600, sent := false, sent_at := none,
    acknowledged := false, acknowledged_at := none, metadata := "\x7b\x7d",
    created_at := 36000 }

/-- Queue holding today's morning and evening rows plus the task-51 reminder,
but no reminder whose metadata names task 5. -/
def exDedupDB : DB :=
  { queue := [exRow51, exMorningRow, exEveningRow], nextQueueId := 4,
    patterns := [], conversations := [] }

/-- A stored pattern row with non-default values and quiet hours set. -/
def exOldPatternRow : PatternRow :=
  { typical_morning_time := some "09:30", typical_evening_time := some "21:15",
    typical_work_hours := none, preferred_reminder_times := none,
    quiet_hours_start := some "22:00", quiet_hours_end := some "23:00",
    last_updated := some 0 }

/-- A user with a stored pattern but no conversation history. -/
def exC9DB : DB :=
  { queue := [], nextQueueId := 1, patterns := [("u", exOldPatternRow)], conversations := [] }

/-- A user with a stored pattern and one conversation at 09:00 on day 1. -/
def exC9bDB : DB :=
  { queue := [], nextQueueId := 1, patterns := [("u", exOldPatternRow)],
    conversations := [("u", 86400 + 9 * 3600)] }

/-- Conversations at 08:00, 08:10 and 07:50 on day 1 (the spec's example). -/
def exMorningConvDB : DB :=
  { queue := [], nextQueueId := 1, patterns := [],
    conversations :=
      [("u", 86400 + 8 * 3600), ("u", 86400 + 8 * 3600 + 600),
       ("u", 86400 + 7 * 3600 + 50 * 60)] }

/-- A single conversation at 19:00 on day 1: evening data but an empty
morning window. -/
def exEveningOnlyDB : DB :=
  { queue := [], nextQueueId := 1, patterns := [],
    conversations := [("u", 86400 + 19 * 3600)] }

/-- Spec-side description (claim C8): the floor of the arithmetic mean of the
minutes-since-midnight of a window's timestamps, rendered `"HH:MM"`, with a
fixed default whenever the window is empty. -/
def specMeanTime (window : List Timestamp) (dflt : String) : String :=
  if window.isEmpty then dflt
  else
    let avg := (window.map (fun t => hourOf t * 60 + minuteOf t)).sum / window.length
    formatHM (avg / 60) (avg % 60)

/-! ## Helper lemmas -/

theorem quietHoursReject_none_start (p : PatternsView) (now : Timestamp)
    (h : p.quiet_hours_start = none) : quietHoursReject p now = .ok false := by
  unfold quietHoursReject
  rw [h]

/-! ## C3, C4, C5: the send-timing policy -/

/-- C3: for every stored state, user, message kind and scheduled time, the
policy returns false whenever the current hour is below 6 or at least 23 —
the hard-window rule fires before quiet hours, the rate limit, or the
scheduled-time window are even consulted. -/
theorem hard_quiet_window_rejects (db : DB) (now : Timestamp)
    (user_id message_type : String) (scheduled_time : Option Timestamp)
    (h : hourOf now < 6 ∨ 23 ≤ hourOf now) :
    should_send_message_now db now user_id message_type scheduled_time = .ok false := by
  unfold should_send_message_now
  simp only [if_pos h]

theorem hard_quiet_window_rejects_witness :
    (hourOf 10800 < 6 ∨ 23 ≤ hourOf 10800) ∧
      should_send_message_now exEmptyDB 10800 "u" "morning_checkin" none = .ok false :=
  ⟨by decide,
   hard_quiet_window_rejects exEmptyDB 10800 "u" "morning_checkin" none (by decide)⟩

/-- C4: once the hard window and the quiet-hours rule have let the call
through, three or more messages sent within the trailing hour make the
policy return false, for every message kind and scheduled time. -/
theorem rate_limit_rejects (db : DB) (now : Timestamp)
    (user_id message_type : String) (scheduled_time : Option Timestamp)
    (h6 : 6 ≤ hourOf now) (h23 : hourOf now < 23)
    (hq : quietHoursReject (get_user_patterns db user_id) now = .ok false)
    (hr : 3 ≤ recentSentCount db user_id now) :
    should_send_message_now db now user_id message_type scheduled_time = .ok false := by
  unfold should_send_message_now
  have hcond : ¬(hourOf now < 6 ∨ 23 ≤ hourOf now) := by omega
  rw [if_neg hcond]
  simp only [hq, if_pos hr]

theorem rate_limit_rejects_witness :
    (6 ≤ hourOf 36000) ∧ (hourOf 36000 < 23) ∧ (3 ≤ recentSentCount exRateDB "u" 36000) ∧
      should_send_message_now exRateDB 36000 "u" "task_reminder" (some 36000) = .ok false :=
  ⟨by decide, by decide, by decide,
   rate_limit_rejects exRateDB 36000 "u" "task_reminder" (some 36000)
     (by decide) (by decide) rfl (by decide)⟩

/-- C5: with no quiet hours set, fewer than three sends in the trailing hour
and an hour inside the hard window, a supplied scheduled time T is accepted
exactly when `|now - T| <= 900` seconds, i.e. within 15 minutes. -/
theorem scheduled_window_rule (db : DB) (now : Timestamp)
    (user_id message_type : String) (T : Timestamp)
    (h6 : 6 ≤ hourOf now) (h23 : hourOf now < 23)
    (hq : (get_user_patterns db user_id).quiet_hours_start = none)
    (hr : recentSentCount db user_id now < 3) :
    should_send_message_now db now user_id message_type (some T)
      = .ok (decide (timeDiffSec T now ≤ 900)) := by
  unfold should_send_message_now
  have hcond : ¬(hourOf now < 6 ∨ 23 ≤ hourOf now) := by omega
  rw [if_neg hcond]
  have hrc : ¬(3 ≤ recentSentCount db user_id now) := by omega
  simp only [quietHoursReject_none_start _ _ hq, if_neg hrc]
  by_cases hd : timeDiffSec T now ≤ 900
  · simp only [if_pos hd, decide_eq_true hd]
  · simp only [if_neg hd]
    rw [decide_eq_false hd]

theorem scheduled_window_rule_witness :
    (should_send_message_now exEmptyDB 36000 "u" "task_reminder" (some 36900) = .ok true) ∧
    (should_send_message_now exEmptyDB 36000 "u" "task_reminder" (some 35100) = .ok true) ∧
    (should_send_message_now exEmptyDB 36000 "u" "task_reminder" (some 35040) = .ok false) :=
  ⟨(scheduled_window_rule exEmptyDB 36000 "u" "task_reminder" 36900
      (by decide) (by decide) rfl (by decide)).trans (by decide),
   (scheduled_window_rule exEmptyDB 36000 "u" "task_reminder" 35100
      (by decide) (by decide) rfl (by decide)).trans (by decide),
   (scheduled_window_rule exEmptyDB 36000 "u" "task_reminder" 35040
      (by decide) (by decide) rfl (by decide)).trans (by decide)⟩

/-! ## C10: the mark operations only touch their own columns of their own row -/

/-- C10: `mark_message_sent` changes only the `sent`/`sent_at` columns of
rows carrying the given id and `mark_message_acknowledged` only the
`acknowledged`/`acknowledged_at` columns; every other column of those rows,
every row with a different id, and the other tables are untouched. -/
theorem mark_operations_frame (db : DB) (now now' : Timestamp) (message_id : Nat) :
    (List.Forall₂ (fun r r' =>
        r'.id = r.id ∧ r'.user_id = r.user_id ∧ r'.message_type = r.message_type ∧
        r'.priority = r.priority ∧ r'.message_content = r.message_content ∧
        r'.scheduled_time = r.scheduled_time ∧ r'.acknowledged = r.acknowledged ∧
        r'.acknowledged_at = r.acknowledged_at ∧ r'.metadata = r.metadata ∧
        r'.created_at = r.created_at ∧ (r.id ≠ message_id → r' = r))
      db.queue (mark_message_sent db now message_id).2.queue) ∧
    (mark_message_sent db now message_id).2.patterns = db.patterns ∧
    (mark_message_sent db now message_id).2.conversations = db.conversations ∧
    (List.Forall₂ (fun r r' =>
        r'.id = r.id ∧ r'.user_id = r.user_id ∧ r'.message_type = r.message_type ∧
        r'.priority = r.priority ∧ r'.message_content = r.message_content ∧
        r'.scheduled_time = r.scheduled_time ∧ r'.sent = r.sent ∧
        r'.sent_at = r.sent_at ∧ r'.metadata = r.metadata ∧
        r'.created_at = r.created_at ∧ (r.id ≠ message_id → r' = r))
      db.queue (mark_message_acknowledged db now' message_id).2.queue) ∧
    (mark_message_acknowledged db now' message_id).2.patterns = db.patterns ∧
    (mark_message_acknowledged db now' message_id).2.conversations = db.conversations := by
  refine ⟨?_, rfl, rfl, ?_, rfl, rfl⟩
  · show List.Forall₂ _ db.queue (db.queue.map _)
    rw [List.forall₂_map_right_iff, List.forall₂_same]
    intro r _
    by_cases hid : r.id = message_id
    · simp [hid]
    · have : (r.id == message_id) = false := by simp [hid]
      simp [this, hid]
  · show List.Forall₂ _ db.queue (db.queue.map _)
    rw [List.forall₂_map_right_iff, List.forall₂_same]
    intro r _
    by_cases hid : r.id = message_id
    · simp [hid]
    · have : (r.id == message_id) = false := by simp [hid]
      simp [this, hid]

/-! ## C8, C9: pattern learning -/

theorem calculate_average_time_cons (x : Timestamp) (xs : List Timestamp) :
    calculate_average_time (x :: xs) =
      formatHM ((((x :: xs).map (fun t => hourOf t * 60 + minuteOf t)).sum /
          (x :: xs).length) / 60)
        ((((x :: xs).map (fun t => hourOf t * 60 + minuteOf t)).sum /
          (x :: xs).length) % 60) := rfl

/-- C8: each typical time is the floor of the arithmetic mean of the
minutes-since-midnight of the trailing-30-day conversation timestamps in
that window (hour in 6..11 for morning, 18..23 for evening), with defaults
08:00 / 20:00 for an empty window; the two concrete conjuncts are the spec's
examples (mean of 08:00, 08:10, 07:50 is 08:00, and an evening-only history
still yields the morning default). -/
theorem learn_patterns_window_means (db : DB) (now : Timestamp) (user_id : String) :
    ((learn_user_patterns db now user_id).1.typical_morning_time =
      specMeanTime ((conversationWindow db now user_id).filter
        (fun t => decide (6 ≤ hourOf t ∧ hourOf t ≤ 11))) "08:00") ∧
    ((learn_user_patterns db now user_id).1.typical_evening_time =
      specMeanTime ((conversationWindow db now user_id).filter
        (fun t => decide (18 ≤ hourOf t ∧ hourOf t ≤ 23))) "20:00") ∧
    (learn_user_patterns exMorningConvDB 172800 "u").1.typical_morning_time = "08:00" ∧
    (learn_user_patterns exEveningOnlyDB 172800 "u").1.typical_morning_time = "08:00" := by
  refine ⟨?_, ?_, by decide, by decide⟩
  · unfold learn_user_patterns specMeanTime
    rcases hcw : conversationWindow db now user_id with _ | ⟨a, l⟩
    · simp
    · simp only []
      rcases hm : (a :: l).filter (fun t => decide (6 ≤ hourOf t ∧ hourOf t ≤ 11)) with _ | ⟨x, xs⟩
      · simp [hm]
      · simp [hm, calculate_average_time_cons]
  · unfold learn_user_patterns specMeanTime
    rcases hcw : conversationWindow db now user_id with _ | ⟨a, l⟩
    · simp
    · simp only []
      rcases hm : (a :: l).filter (fun t => decide (18 ≤ hourOf t ∧ hourOf t ≤ 23)) with _ | ⟨x, xs⟩
      · simp [hm]
      · simp [hm, calculate_average_time_cons]

theorem findPattern_map_upsert (user_id : String) (row : PatternRow)
    (pats : List (String × PatternRow)) :
    findPattern (pats.map (fun p => if p.1 == user_id then (user_id, row) else p)) user_id =
      if pats.any (fun p => p.1 == user_id) then some row else none := by
  induction pats with
  | nil => rfl
  | cons hd tl ih =>
    rw [List.map_cons, List.any_cons]
    by_cases hh : hd.1 == user_id
    · rw [if_pos hh]
      unfold findPattern
      rw [List.find?_cons_of_pos _ (by simp)]
      simp [hh]
    · rw [if_neg hh]
      have hb : (hd.1 == user_id) = false := by
        cases hx : hd.1 == user_id
        · rfl
        · exact absurd hx hh
      unfold findPattern at ih ⊢
      rw [List.find?_cons_of_neg _ (by simpa using hh)]
      simp only [hb, Bool.false_or]
      exact ih

theorem findPattern_append_fresh (user_id : String) (row : PatternRow)
    (pats : List (String × PatternRow))
    (h : pats.any (fun p => p.1 == user_id) = false) :
    findPattern (pats ++ [(user_id, row)]) user_id = some row := by
  induction pats with
  | nil =>
    unfold findPattern
    rw [List.nil_append, List.find?_cons_of_pos _ (by simp)]
    rfl
  | cons hd tl ih =>
    rw [List.any_cons] at h
    have hhd : (hd.1 == user_id) = false := by
      cases hb : hd.1 == user_id <;> simp [hb] at h ⊢
    have htl : tl.any (fun p => p.1 == user_id) = false := by
      cases hb : tl.any (fun p => p.1 == user_id) <;> simp [hb] at h ⊢
    unfold findPattern at ih ⊢
    rw [List.cons_append, List.find?_cons_of_neg _ (by simpa using hhd)]
    exact ih htl

theorem findPattern_upsert (pats : List (String × PatternRow)) (user_id : String)
    (row : PatternRow) :
    findPattern (upsertPattern pats user_id row) user_id = some row := by
  unfold upsertPattern
  by_cases hany : pats.any (fun p => p.1 == user_id)
  · rw [if_pos hany, findPattern_map_upsert, if_pos hany]
  · rw [if_neg hany]
    have hb : pats.any (fun p => p.1 == user_id) = false := by
      cases hx : pats.any (fun p => p.1 == user_id)
      · rfl
      · exact absurd hx hany
    exact findPattern_append_fresh user_id row pats hb

/-- C9 counterexample: a user with a stored pattern (typical morning 09:30)
and no conversation history in the trailing 30 days; `learn_user_patterns`
returns the defaults but leaves the store untouched, so the returned 08:00
does not replace the stored 09:30 as the claim requires. -/
theorem learn_no_history_keeps_store_cex :
    (learn_user_patterns exC9DB 86400 "u").1.typical_morning_time = "08:00" ∧
    (learn_user_patterns exC9DB 86400 "u").2 = exC9DB ∧
    (findPattern (learn_user_patterns exC9DB 86400 "u").2.patterns "u").map
        (fun r => r.typical_morning_time) = some (some "09:30") :=
  ⟨rfl, rfl, rfl⟩

/-- C9 (amended): when at least one conversation timestamp lies in the
trailing 30 days, `learn_user_patterns` upserts a row built purely from the
values it returns — fully replacing the prior row, including resetting the
columns it does not recompute (quiet hours etc.) to NULL; with no history it
returns the defaults without modifying the store. -/
theorem learn_upsert_fully_replaces (db : DB) (now : Timestamp) (user_id : String)
    (h : conversationWindow db now user_id ≠ []) :
    findPattern (learn_user_patterns db now user_id).2.patterns user_id =
      some { typical_morning_time :=
               some (learn_user_patterns db now user_id).1.typical_morning_time,
             typical_evening_time :=
               some (learn_user_patterns db now user_id).1.typical_evening_time,
             typical_work_hours := none, preferred_reminder_times := none,
             quiet_hours_start := none, quiet_hours_end := none,
             last_updated := some now } := by
  unfold learn_user_patterns
  rcases hcw : conversationWindow db now user_id with _ | ⟨a, l⟩
  · exact absurd hcw h
  · simp only []
    exact findPattern_upsert db.patterns user_id _

theorem learn_upsert_fully_replaces_witness :
    (conversationWindow exC9bDB 172800 "u" ≠ []) ∧
      findPattern (learn_user_patterns exC9bDB 172800 "u").2.patterns "u" =
        some { typical_morning_time :=
                 some (learn_user_patterns exC9bDB 172800 "u").1.typical_morning_time,
               typical_evening_time :=
                 some (learn_user_patterns exC9bDB 172800 "u").1.typical_evening_time,
               typical_work_hours := none, preferred_reminder_times := none,
               quiet_hours_start := none, quiet_hours_end := none,
               last_updated := some 172800 } :=
  ⟨by decide, learn_upsert_fully_replaces exC9bDB 172800 "u" (by decide)⟩

/-! ## C7: enqueue / listDue / markSent round trip -/

/-- C7: enqueueing a message with body B and a scheduled time at or before
`now` makes `get_pending_messages` return an entry with the returned id,
kind and body; every returned entry corresponds to a stored unsent row that
is due; the list is ordered by (priority ascending, scheduled_time
ascending); and after `mark_message_sent` on that id the id no longer
appears in the pending list. -/
theorem queue_roundtrip (db : DB) (now now2 : Timestamp) (user_id K B : String)
    (priority : Nat) (sched : Timestamp) (mid : Nat) (db1 : DB)
    (hs : sched ≤ now)
    (hq : queue_message db now user_id K priority B (some sched) none = (mid, db1)) :
    (∃ e ∈ get_pending_messages db1 now user_id,
        e.id = mid ∧ e.message_type = K ∧ e.content = B) ∧
    (∀ e ∈ get_pending_messages db1 now user_id,
        ∃ r ∈ db1.queue, r.id = e.id ∧ r.sent = false ∧ r.scheduled_time ≤ now) ∧
    List.Pairwise pendingLE (get_pending_messages db1 now user_id) ∧
    (∀ e ∈ get_pending_messages (mark_message_sent db1 now2 mid).2 now user_id,
        e.id ≠ mid) := by
  unfold queue_message at hq
  rw [Prod.mk.injEq] at hq
  obtain ⟨hmid, hdb1⟩ := hq
  subst hmid
  subst hdb1
  refine ⟨?_, ?_, ?_, ?_⟩
  · -- the fresh row appears in the pending list
    refine ⟨toPendingView
      { id := db.nextQueueId, user_id := user_id, message_type := K, priority := priority,
        message_content := B, scheduled_time := (some sched).getD now, sent := false,
        sent_at := none, acknowledged := false, acknowledged_at := none,
        metadata := jsonDumps ((none : Option Meta).getD Meta.empty), created_at := now },
      ?_, rfl, rfl, rfl⟩
    unfold get_pending_messages
    refine List.mem_map_of_mem toPendingView ?_
    rw [(List.perm_insertionSort rowLE _).mem_iff]
    refine List.mem_filter.mpr ⟨List.mem_append_right _ (List.mem_singleton.mpr rfl), ?_⟩
    simp [hs]
  · -- every pending entry is an unsent, due row of the store
    intro e he
    unfold get_pending_messages at he
    obtain ⟨r, hr, rfl⟩ := List.mem_map.mp he
    rw [(List.perm_insertionSort rowLE _).mem_iff] at hr
    obtain ⟨hmem, hpred⟩ := List.mem_filter.mp hr
    simp only [Bool.and_eq_true, beq_iff_eq, Bool.not_eq_true', decide_eq_true_eq] at hpred
    exact ⟨r, hmem, rfl, hpred.1.2, hpred.2⟩
  · -- ordering
    unfold get_pending_messages
    refine List.Pairwise.map toPendingView (fun a b h => h) ?_
    exact List.sorted_insertionSort rowLE _
  · -- after markSent the id is gone from the pending list
    intro e he
    unfold get_pending_messages mark_message_sent at he
    obtain ⟨r, hr, rfl⟩ := List.mem_map.mp he
    rw [(List.perm_insertionSort rowLE _).mem_iff] at hr
    obtain ⟨hmem, hpred⟩ := List.mem_filter.mp hr
    simp only [Bool.and_eq_true, beq_iff_eq, Bool.not_eq_true', decide_eq_true_eq] at hpred
    obtain ⟨r0, _, hfr⟩ := List.mem_map.mp hmem
    intro hid
    by_cases h0 : r0.id = db.nextQueueId
    · have : r.sent = true := by
        rw [← hfr]
        simp [h0]
      rw [hpred.1.2] at this
      exact Bool.false_ne_true this
    · have : r = r0 := by
        rw [← hfr]
        simp [h0]
      rw [this] at hid
      exact h0 hid

theorem queue_roundtrip_witness :
    (36000 ≤ 36000) ∧
      (∃ e ∈ get_pending_messages
          (queue_message exEmptyDB 36000 "u" "encouragement" 3 "b" (some 36000) none).2
          36000 "u",
        e.id = (queue_message exEmptyDB 36000 "u" "encouragement" 3 "b" (some 36000) none).1 ∧
          e.message_type = "encouragement" ∧ e.content = "b") :=
  ⟨by decide,
   (queue_roundtrip exEmptyDB 36000 0 "u" "encouragement" "b" 3 36000 _ _
      (by decide) rfl).1⟩

/-! ## C6: task-reminder deduplication is substring matching, not exact -/

/-- C6 counterexample: task 5 is due today and no queued reminder carries
task 5's metadata, yet the sweep enqueues nothing — the `LIKE
'%"task_id": 5%'` check is satisfied by the reminder for task 51, whose id
has 5 as a numeric prefix, so it suppresses the enqueue the claim requires. -/
theorem task_dedup_not_exact_cex :
    exTask5.due_date = some (dateOf 36000) ∧
    (∀ r ∈ exDedupDB.queue, r.metadata ≠ jsonDumps (Meta.taskId 5)) ∧
    (check_and_queue_daily_messages "u" exEnvOk 36000 exDedupDB).1 = .ok () ∧
    (check_and_queue_daily_messages "u" exEnvOk 36000 exDedupDB).2 = exDedupDB :=
  ⟨rfl, by decide, by decide, by decide⟩

/-- C6 (amended): for a pending task due today or tomorrow, the sweep's task
block enqueues a `task_reminder` scheduled at 10:00 today if and only if no
`task_reminder` row scheduled today has serialized metadata containing the
substring `"task_id": <id>` — a substring (SQL LIKE) check, so a reminder
for a different task whose id has the queried id as a numeric prefix also
suppresses the enqueue. -/
theorem task_reminder_substring_dedup (user_id : String) (now : Timestamp) (db : DB)
    (task : Task) (due : Nat) (hdue : task.due_date = some due)
    (h0 : dateOf now ≤ due) (h1 : due ≤ dateOf now + 1) :
    (taskLoop user_id now [task] db).queue =
      if existsTaskReminderToday db user_id task.id now then db.queue
      else db.queue ++ [taskReminderRow user_id now task db.nextQueueId] := by
  have hdays : (0 : Int) ≤ (due : Int) - (dateOf now : Int) ∧
      (due : Int) - (dateOf now : Int) ≤ 1 := by omega
  unfold taskLoop
  rw [hdue]
  simp only [if_pos hdays]
  cases hex : existsTaskReminderToday db user_id task.id now
  · simp only [Bool.false_eq_true, if_false]
    unfold taskLoop queue_message taskReminderRow generate_task_reminder
    rfl
  · simp only [if_true]
    unfold taskLoop
    rfl

theorem task_reminder_substring_dedup_witness :
    (exTask5.due_date = some 0) ∧ (dateOf 36000 ≤ 0) ∧ (0 ≤ dateOf 36000 + 1) ∧
      (taskLoop "u" 36000 [exTask5] exDedupDB).queue =
        (if existsTaskReminderToday exDedupDB "u" exTask5.id 36000 then exDedupDB.queue
         else exDedupDB.queue ++ [taskReminderRow "u" 36000 exTask5 exDedupDB.nextQueueId]) :=
  ⟨rfl, by decide, by decide,
   task_reminder_substring_dedup "u" 36000 exDedupDB exTask5 0 rfl (by decide) (by decide)⟩

/-! ## C2: a failing category aborts the sweep instead of being isolated -/

/-- C2 counterexample: with the schedule provider raising while generating
the morning check-in, the sweep propagates the exception and enqueues
nothing at all — in particular the due reminder for task 5 that the
remaining task category should have produced never appears, so the
categories are not isolated and the error reaches the caller. -/
theorem sweep_abort_cex :
    exEnvFail.pendingTasks = .ok [exTask5] ∧
    exTask5.due_date = some (dateOf 36000) ∧
    (check_and_queue_daily_messages "u" exEnvFail 36000 exEmptyDB).1 =
      .error (Err.upstream "schedule provider down") ∧
    (check_and_queue_daily_messages "u" exEnvFail 36000 exEmptyDB).2.queue = [] :=
  ⟨rfl, rfl, by decide, by decide⟩

/-- C2 (amended): an exception raised while processing one category is not
caught inside the sweep: if the morning block raises, the whole sweep
returns that exception to its caller with the store exactly as the failing
block left it — the evening, weekly and task categories are skipped. -/
theorem sweep_error_propagates (user_id : String) (env : Env) (now : Timestamp)
    (db : DB) (e : Err)
    (h : morningCategory user_id (get_user_patterns db user_id) env now db =
      (.error e, db)) :
    check_and_queue_daily_messages user_id env now db = (.error e, db) := by
  unfold check_and_queue_daily_messages
  simp only [h]

theorem sweep_error_propagates_witness :
    (morningCategory "u" (get_user_patterns exEmptyDB "u") exEnvFail 36000 exEmptyDB =
      (.error (Err.upstream "schedule provider down"), exEmptyDB)) ∧
    check_and_queue_daily_messages "u" exEnvFail 36000 exEmptyDB =
      (.error (Err.upstream "schedule provider down"), exEmptyDB) :=
  ⟨by decide,
   sweep_error_propagates "u" exEnvFail 36000 exEmptyDB
     (Err.upstream "schedule provider down") (by decide)⟩

/-! ## C1 infrastructure: frame facts and monotone existence checks -/

theorem grows_refl (db : DB) : Grows db db := ⟨⟨[], by simp⟩, rfl, rfl⟩

theorem grows_trans {a b c : DB} (h1 : Grows a b) (h2 : Grows b c) : Grows a c := by
  obtain ⟨⟨l1, hq1⟩, hp1, hc1⟩ := h1
  obtain ⟨⟨l2, hq2⟩, hp2, hc2⟩ := h2
  exact ⟨⟨l1 ++ l2, by rw [hq2, hq1, List.append_assoc]⟩, hp2.trans hp1, hc2.trans hc1⟩

theorem queue_message_grows (db : DB) (now : Timestamp) (u ty : String) (p : Nat)
    (c : String) (st : Option Timestamp) (md : Option Meta) :
    Grows db (queue_message db now u ty p c st md).2 :=
  ⟨⟨_, rfl⟩, rfl, rfl⟩

theorem any_mono {l e : List QueuedMessage} {f : QueuedMessage → Bool}
    (h : l.any f = true) : (l ++ e).any f = true := by
  rw [List.any_append, h, Bool.true_or]

theorem existsTodayOfType_mono {db db' : DB} (hg : Grows db db') {u ty : String}
    {now : Timestamp} (h : existsTodayOfType db u ty now = true) :
    existsTodayOfType db' u ty now = true := by
  obtain ⟨⟨l, hq⟩, _, _⟩ := hg
  unfold existsTodayOfType at h ⊢
  rw [hq]
  exact any_mono h

theorem existsEveningToday_mono {db db' : DB} (hg : Grows db db') {u : String}
    {now : Timestamp} (h : existsEveningToday db u now = true) :
    existsEveningToday db' u now = true := by
  obtain ⟨⟨l, hq⟩, _, _⟩ := hg
  unfold existsEveningToday at h ⊢
  rw [hq]
  exact any_mono h

theorem existsTaskReminderToday_mono {db db' : DB} (hg : Grows db db') {u : String}
    {tid : Nat} {now : Timestamp} (h : existsTaskReminderToday db u tid now = true) :
    existsTaskReminderToday db' u tid now = true := by
  obtain ⟨⟨l, hq⟩, _, _⟩ := hg
  unfold existsTaskReminderToday at h ⊢
  rw [hq]
  exact any_mono h

theorem existsTodayOfType_of_mem {db : DB} {u ty : String} {now : Timestamp}
    {r : QueuedMessage} (hm : r ∈ db.queue) (h1 : r.user_id = u)
    (h2 : r.message_type = ty) (h3 : dateOf r.scheduled_time = dateOf now) :
    existsTodayOfType db u ty now = true := by
  unfold existsTodayOfType
  rw [List.any_eq_true]
  exact ⟨r, hm, by simp [h1, h2, h3]⟩

theorem existsEveningToday_of_mem {db : DB} {u : String} {now : Timestamp}
    {r : QueuedMessage} (hm : r ∈ db.queue) (h1 : r.user_id = u)
    (h2 : r.message_type = "evening_reflection" ∨ r.message_type = "evening_simple")
    (h3 : dateOf r.scheduled_time = dateOf now) :
    existsEveningToday db u now = true := by
  unfold existsEveningToday
  rw [List.any_eq_true]
  refine ⟨r, hm, ?_⟩
  rcases h2 with h2 | h2 <;> simp [h1, h2, h3]

theorem existsTaskReminderToday_of_mem {db : DB} {u : String} {tid : Nat}
    {now : Timestamp} {r : QueuedMessage} (hm : r ∈ db.queue) (h1 : r.user_id = u)
    (h2 : r.message_type = "task_reminder")
    (h4 : likeContains (taskLikePattern tid) r.metadata = true)
    (h3 : dateOf r.scheduled_time = dateOf now) :
    existsTaskReminderToday db u tid now = true := by
  unfold existsTaskReminderToday
  rw [List.any_eq_true]
  exact ⟨r, hm, by simp [h1, h2, h3, h4]⟩

theorem startsWithChars_self_append (p b : List Char) :
    startsWithChars p (p ++ b) = true := by
  induction p with
  | nil => rfl
  | cons a as ih => simp [startsWithChars, ih]

theorem containsChars_append_left (p : List Char) (a : List Char) {l : List Char}
    (h : containsChars p l = true) : containsChars p (a ++ l) = true := by
  induction a with
  | nil => simpa using h
  | cons c cs ih =>
    rw [List.cons_append]
    unfold containsChars
    rw [ih, Bool.or_true]

theorem containsChars_self_append (p b : List Char) :
    containsChars p (p ++ b) = true := by
  cases hp : p ++ b with
  | nil =>
    obtain ⟨hp1, hp2⟩ := List.append_eq_nil.mp hp
    subst hp1
    rfl
  | cons c r =>
    unfold containsChars
    rw [← hp, startsWithChars_self_append, Bool.true_or]

theorem likeContains_taskLikePattern (i : Nat) :
    likeContains (taskLikePattern i) (jsonDumps (Meta.taskId i)) = true := by
  have hlit : ("\x7b\"task_id\": " : String).data
      = "\x7b".data ++ ("\"task_id\": " : String).data := by decide
  have hsplit : ("\x7b\"task_id\": " ++ toString i ++ "\x7d").data
      = "\x7b".data ++ (("\"task_id\": " ++ toString i).data ++ "\x7d".data) := by
    simp [String.data_append, hlit, List.append_assoc]
  unfold likeContains jsonDumps taskLikePattern
  rw [hsplit, String.data_append]
  exact containsChars_append_left _ _ (containsChars_self_append _ _)

theorem dateOf_combine (t : Timestamp) {h m : Nat} (hh : h ≤ 23) (hm : m ≤ 59) :
    dateOf (combine t h m) = dateOf t := by
  unfold dateOf combine
  rw [Nat.mul_add_div (by norm_num)]
  have hz : (h * 3600 + m * 60) / 86400 = 0 := Nat.div_eq_of_lt (by omega)
  rw [hz]
  rfl

theorem mkHM_bounds {oh om : Option Nat} {h m : Nat} (hp : mkHM oh om = some (h, m)) :
    h ≤ 23 ∧ m ≤ 59 := by
  cases oh with
  | none => simp [mkHM] at hp
  | some a =>
    cases om with
    | none => simp [mkHM] at hp
    | some b =>
      simp only [mkHM] at hp
      split at hp
      · rename_i hcond
        obtain ⟨h1, h2⟩ := Prod.mk.inj (Option.some.inj hp)
        omega
      · simp at hp

theorem parseHM_bounds {s : String} {h m : Nat} (hp : parseHM s = some (h, m)) :
    h ≤ 23 ∧ m ≤ 59 := by
  unfold parseHM at hp
  split at hp
  any_goals exact mkHM_bounds hp
  simp at hp

theorem strptimeHM_bounds {o : Option String} {h m : Nat}
    (hp : strptimeHM o = .ok (h, m)) : h ≤ 23 ∧ m ≤ 59 := by
  cases o with
  | none => simp [strptimeHM] at hp
  | some s =>
    simp only [strptimeHM] at hp
    cases hps : parseHM s with
    | none => rw [hps] at hp; simp at hp
    | some hm' =>
      rw [hps] at hp
      have := Except.ok.inj hp
      rw [this] at hps
      exact parseHM_bounds hps

theorem generate_morning_checkin_type {user_id : String} {env : Env} {msg : GenMsg}
    (h : generate_morning_checkin user_id env = .ok msg) : msg.type = "morning_checkin" := by
  unfold generate_morning_checkin at h
  cases hs : env.schedules with
  | error e => rw [hs] at h; exact Except.noConfusion h
  | ok schedules =>
    rw [hs] at h
    cases ht : env.pendingTasks with
    | error e => rw [ht] at h; exact Except.noConfusion h
    | ok tasks =>
      rw [ht] at h
      cases hg : env.activeGoals with
      | error e => rw [hg] at h; exact Except.noConfusion h
      | ok goals =>
        rw [hg] at h
        rw [← Except.ok.inj h]

theorem generate_evening_reflection_type {user_id : String} {env : Env} {msg : GenMsg}
    (h : generate_evening_reflection user_id env = .ok msg) :
    msg.type = "evening_reflection" ∨ msg.type = "evening_simple" := by
  unfold generate_evening_reflection at h
  cases hj : env.journalEntry with
  | error e => rw [hj] at h; exact Except.noConfusion h
  | ok b =>
    rw [hj] at h
    cases b with
    | true =>
      right
      rw [← Except.ok.inj h]
    | false =>
      cases hs : env.schedules with
      | error e => rw [hs] at h; exact Except.noConfusion h
      | ok schedules =>
        rw [hs] at h
        left
        rw [← Except.ok.inj h]

/-- The row inserted by `queue_message` survives into any later state that
only appends to the queue. -/
theorem queue_message_row_mem {db : DB} (now : Timestamp) (u ty : String) (p : Nat)
    (c : String) (st : Option Timestamp) (md : Option Meta) {db'' : DB}
    (hg : Grows (queue_message db now u ty p c st md).2 db'') :
    ∃ r ∈ db''.queue, r.user_id = u ∧ r.message_type = ty ∧
      r.scheduled_time = st.getD now ∧ r.metadata = jsonDumps (md.getD Meta.empty) := by
  obtain ⟨⟨l, hq⟩, _, _⟩ := hg
  refine ⟨{ id := db.nextQueueId, user_id := u, message_type := ty, priority := p,
            message_content := c, scheduled_time := st.getD now, sent := false,
            sent_at := none, acknowledged := false, acknowledged_at := none,
            metadata := jsonDumps (md.getD Meta.empty), created_at := now },
    ?_, rfl, rfl, rfl, rfl⟩
  rw [hq]
  exact List.mem_append_left _ (List.mem_append_right _ (List.mem_singleton.mpr rfl))

theorem get_user_patterns_congr {db db' : DB} (h : db'.patterns = db.patterns)
    (user_id : String) : get_user_patterns db' user_id = get_user_patterns db user_id := by
  unfold get_user_patterns findPattern
  rw [h]

theorem morningCategory_cases (user_id : String) (v : PatternsView) (env : Env)
    (now : Timestamp) (db : DB) :
    (∃ e, morningCategory user_id v env now db = (.error e, db)) ∨
    (∃ hh mm, strptimeHM v.typical_morning_time = .ok (hh, mm) ∧
      existsTodayOfType db user_id "morning_checkin" now = true ∧
      morningCategory user_id v env now db = (.ok (), db)) ∨
    (∃ hh mm msg, strptimeHM v.typical_morning_time = .ok (hh, mm) ∧
      existsTodayOfType db user_id "morning_checkin" now = false ∧
      generate_morning_checkin user_id env = .ok msg ∧
      morningCategory user_id v env now db =
        (.ok (), (queue_message db now user_id msg.type msg.priority msg.content
           (some (combine now hh mm)) none).2)) := by
  unfold morningCategory
  cases hs : strptimeHM v.typical_morning_time with
  | error e => exact Or.inl ⟨e, rfl⟩
  | ok hm =>
    obtain ⟨hh, mm⟩ := hm
    cases hex : existsTodayOfType db user_id "morning_checkin" now with
    | false =>
      cases hgen : generate_morning_checkin user_id env with
      | error e =>
        refine Or.inl ⟨e, ?_⟩
        simp [hgen]
      | ok msg =>
        refine Or.inr (Or.inr ⟨hh, mm, msg, rfl, rfl, rfl, ?_⟩)
        simp [hgen]
    | true => exact Or.inr (Or.inl ⟨hh, mm, rfl, rfl, by simp⟩)

theorem eveningCategory_cases (user_id : String) (v : PatternsView) (env : Env)
    (now : Timestamp) (db : DB) :
    (∃ e, eveningCategory user_id v env now db = (.error e, db)) ∨
    (∃ hh mm, strptimeHM v.typical_evening_time = .ok (hh, mm) ∧
      existsEveningToday db user_id now = true ∧
      eveningCategory user_id v env now db = (.ok (), db)) ∨
    (∃ hh mm msg, strptimeHM v.typical_evening_time = .ok (hh, mm) ∧
      existsEveningToday db user_id now = false ∧
      generate_evening_reflection user_id env = .ok msg ∧
      eveningCategory user_id v env now db =
        (.ok (), (queue_message db now user_id msg.type msg.priority msg.content
           (some (combine now hh mm)) none).2)) := by
  unfold eveningCategory
  cases hs : strptimeHM v.typical_evening_time with
  | error e => exact Or.inl ⟨e, rfl⟩
  | ok hm =>
    obtain ⟨hh, mm⟩ := hm
    cases hex : existsEveningToday db user_id now with
    | false =>
      cases hgen : generate_evening_reflection user_id env with
      | error e =>
        refine Or.inl ⟨e, ?_⟩
        simp [hgen]
      | ok msg =>
        refine Or.inr (Or.inr ⟨hh, mm, msg, rfl, rfl, rfl, ?_⟩)
        simp [hgen]
    | true => exact Or.inr (Or.inl ⟨hh, mm, rfl, rfl, by simp⟩)

theorem weeklyCategory_cases (user_id : String) (now : Timestamp) (db : DB) :
    (weekday now ≠ 6 ∧ weeklyCategory user_id now db = (.ok (), db)) ∨
    (weekday now = 6 ∧ existsTodayOfType db user_id "weekly_review" now = true ∧
      weeklyCategory user_id now db = (.ok (), db)) ∨
    (weekday now = 6 ∧ existsTodayOfType db user_id "weekly_review" now = false ∧
      weeklyCategory user_id now db = (.ok (),
        (queue_message db now user_id (generate_weekly_review_prompt user_id).type
          (generate_weekly_review_prompt user_id).priority
          (generate_weekly_review_prompt user_id).content
          (some (combine now 18 0)) none).2)) := by
  unfold weeklyCategory
  by_cases hw : weekday now = 6
  · rw [if_pos hw]
    cases hex : existsTodayOfType db user_id "weekly_review" now with
    | true => exact Or.inr (Or.inl ⟨hw, rfl, by simp⟩)
    | false => exact Or.inr (Or.inr ⟨hw, rfl, by simp⟩)
  · rw [if_neg hw]
    exact Or.inl ⟨hw, rfl⟩

theorem taskCategory_cases (user_id : String) (env : Env) (now : Timestamp) (db : DB) :
    (∃ e, env.pendingTasks = .error e ∧
      taskCategory user_id env now db = (.error e, db)) ∨
    (∃ ts, env.pendingTasks = .ok ts ∧
      taskCategory user_id env now db = (.ok (), taskLoop user_id now ts db)) := by
  unfold taskCategory
  cases ht : env.pendingTasks with
  | error e => exact Or.inl ⟨e, rfl, rfl⟩
  | ok ts => exact Or.inr ⟨ts, rfl, rfl⟩

theorem morningCategory_error_eq {user_id : String} {v : PatternsView} {env : Env}
    {now : Timestamp} {db db' : DB} {e : Err}
    (h : morningCategory user_id v env now db = (.error e, db')) : db' = db := by
  rcases morningCategory_cases user_id v env now db with ⟨e', hc⟩ | ⟨_, _, _, _, hc⟩ |
    ⟨_, _, _, _, _, _, hc⟩
  · exact (Prod.mk.inj (h.symm.trans hc)).2
  · exact absurd (Prod.mk.inj (h.symm.trans hc)).1 (by simp)
  · exact absurd (Prod.mk.inj (h.symm.trans hc)).1 (by simp)

theorem eveningCategory_error_eq {user_id : String} {v : PatternsView} {env : Env}
    {now : Timestamp} {db db' : DB} {e : Err}
    (h : eveningCategory user_id v env now db = (.error e, db')) : db' = db := by
  rcases eveningCategory_cases user_id v env now db with ⟨e', hc⟩ | ⟨_, _, _, _, hc⟩ |
    ⟨_, _, _, _, _, _, hc⟩
  · exact (Prod.mk.inj (h.symm.trans hc)).2
  · exact absurd (Prod.mk.inj (h.symm.trans hc)).1 (by simp)
  · exact absurd (Prod.mk.inj (h.symm.trans hc)).1 (by simp)

theorem morningCategory_grows {user_id : String} {v : PatternsView} {env : Env}
    {now : Timestamp} {db : DB} {r : Except Err Unit} {db' : DB}
    (h : morningCategory user_id v env now db = (r, db')) : Grows db db' := by
  rcases morningCategory_cases user_id v env now db with ⟨e, hc⟩ | ⟨_, _, _, _, hc⟩ |
    ⟨_, _, _, _, _, _, hc⟩
  · rw [(Prod.mk.inj (h.symm.trans hc)).2]
    exact grows_refl db
  · rw [(Prod.mk.inj (h.symm.trans hc)).2]
    exact grows_refl db
  · rw [(Prod.mk.inj (h.symm.trans hc)).2]
    exact queue_message_grows db now user_id _ _ _ _ _

theorem eveningCategory_grows {user_id : String} {v : PatternsView} {env : Env}
    {now : Timestamp} {db : DB} {r : Except Err Unit} {db' : DB}
    (h : eveningCategory user_id v env now db = (r, db')) : Grows db db' := by
  rcases eveningCategory_cases user_id v env now db with ⟨e, hc⟩ | ⟨_, _, _, _, hc⟩ |
    ⟨_, _, _, _, _, _, hc⟩
  · rw [(Prod.mk.inj (h.symm.trans hc)).2]
    exact grows_refl db
  · rw [(Prod.mk.inj (h.symm.trans hc)).2]
    exact grows_refl db
  · rw [(Prod.mk.inj (h.symm.trans hc)).2]
    exact queue_message_grows db now user_id _ _ _ _ _

theorem weeklyCategory_grows {user_id : String} {now : Timestamp} {db : DB}
    {r : Except Err Unit} {db' : DB}
    (h : weeklyCategory user_id now db = (r, db')) : Grows db db' := by
  rcases weeklyCategory_cases user_id now db with ⟨_, hc⟩ | ⟨_, _, hc⟩ | ⟨_, _, hc⟩
  · rw [(Prod.mk.inj (h.symm.trans hc)).2]
    exact grows_refl db
  · rw [(Prod.mk.inj (h.symm.trans hc)).2]
    exact grows_refl db
  · rw [(Prod.mk.inj (h.symm.trans hc)).2]
    exact queue_message_grows db now user_id _ _ _ _ _

theorem weeklyCategory_ok_shape (user_id : String) (now : Timestamp) (db : DB) :
    ∃ db', weeklyCategory user_id now db = (.ok (), db') := by
  rcases weeklyCategory_cases user_id now db with ⟨_, hc⟩ | ⟨_, _, hc⟩ | ⟨_, _, hc⟩ <;>
    exact ⟨_, hc⟩

theorem morningCategory_ok_stable {user_id : String} {v : PatternsView} {env : Env}
    {now : Timestamp} {db db' : DB}
    (h : morningCategory user_id v env now db = (.ok (), db'))
    {db'' : DB} (hg : Grows db' db'') :
    morningCategory user_id v env now db'' = (.ok (), db'') := by
  rcases morningCategory_cases user_id v env now db with ⟨e, hc⟩ | ⟨hh, mm, hs, hex, hc⟩ |
    ⟨hh, mm, msg, hs, hex, hgen, hc⟩
  · exact absurd (Prod.mk.inj (h.symm.trans hc)).1 (by simp)
  · have hdb : db = db' := (Prod.mk.inj (hc.symm.trans h)).2
    subst hdb
    have hex'' : existsTodayOfType db'' user_id "morning_checkin" now = true :=
      existsTodayOfType_mono hg hex
    unfold morningCategory
    rw [hs]
    simp [hex'']
  · have hdb : _ = db' := (Prod.mk.inj (hc.symm.trans h)).2
    rw [← hdb] at hg
    obtain ⟨r0, hr0mem, hr0u, hr0ty, hr0sch, _⟩ :=
      queue_message_row_mem now user_id msg.type msg.priority msg.content
        (some (combine now hh mm)) none hg
    obtain ⟨hbh, hbm⟩ := strptimeHM_bounds hs
    have hex'' : existsTodayOfType db'' user_id "morning_checkin" now = true := by
      refine existsTodayOfType_of_mem hr0mem hr0u
        (hr0ty.trans (generate_morning_checkin_type hgen)) ?_
      rw [hr0sch]
      exact dateOf_combine now hbh hbm
    unfold morningCategory
    rw [hs]
    simp [hex'']

theorem eveningCategory_ok_stable {user_id : String} {v : PatternsView} {env : Env}
    {now : Timestamp} {db db' : DB}
    (h : eveningCategory user_id v env now db = (.ok (), db'))
    {db'' : DB} (hg : Grows db' db'') :
    eveningCategory user_id v env now db'' = (.ok (), db'') := by
  rcases eveningCategory_cases user_id v env now db with ⟨e, hc⟩ | ⟨hh, mm, hs, hex, hc⟩ |
    ⟨hh, mm, msg, hs, hex, hgen, hc⟩
  · exact absurd (Prod.mk.inj (h.symm.trans hc)).1 (by simp)
  · have hdb : db = db' := (Prod.mk.inj (hc.symm.trans h)).2
    subst hdb
    have hex'' : existsEveningToday db'' user_id now = true :=
      existsEveningToday_mono hg hex
    unfold eveningCategory
    rw [hs]
    simp [hex'']
  · have hdb : _ = db' := (Prod.mk.inj (hc.symm.trans h)).2
    rw [← hdb] at hg
    obtain ⟨r0, hr0mem, hr0u, hr0ty, hr0sch, _⟩ :=
      queue_message_row_mem now user_id msg.type msg.priority msg.content
        (some (combine now hh mm)) none hg
    obtain ⟨hbh, hbm⟩ := strptimeHM_bounds hs
    have hty : r0.message_type = "evening_reflection" ∨ r0.message_type = "evening_simple" := by
      rcases generate_evening_reflection_type hgen with h2 | h2
      · exact Or.inl (hr0ty.trans h2)
      · exact Or.inr (hr0ty.trans h2)
    have hex'' : existsEveningToday db'' user_id now = true := by
      refine existsEveningToday_of_mem hr0mem hr0u hty ?_
      rw [hr0sch]
      exact dateOf_combine now hbh hbm
    unfold eveningCategory
    rw [hs]
    simp [hex'']

theorem weeklyCategory_ok_stable {user_id : String} {now : Timestamp} {db db' : DB}
    (h : weeklyCategory user_id now db = (.ok (), db'))
    {db'' : DB} (hg : Grows db' db'') :
    weeklyCategory user_id now db'' = (.ok (), db'') := by
  rcases weeklyCategory_cases user_id now db with ⟨hw, hc⟩ | ⟨hw, hex, hc⟩ | ⟨hw, hex, hc⟩
  · unfold weeklyCategory
    rw [if_neg hw]
  · have hdb : db = db' := (Prod.mk.inj (hc.symm.trans h)).2
    subst hdb
    have hex'' : existsTodayOfType db'' user_id "weekly_review" now = true :=
      existsTodayOfType_mono hg hex
    unfold weeklyCategory
    rw [if_pos hw]
    simp [hex'']
  · have hdb : _ = db' := (Prod.mk.inj (hc.symm.trans h)).2
    rw [← hdb] at hg
    obtain ⟨r0, hr0mem, hr0u, hr0ty, hr0sch, _⟩ :=
      queue_message_row_mem now user_id (generate_weekly_review_prompt user_id).type
        (generate_weekly_review_prompt user_id).priority
        (generate_weekly_review_prompt user_id).content
        (some (combine now 18 0)) none hg
    have hex'' : existsTodayOfType db'' user_id "weekly_review" now = true := by
      refine existsTodayOfType_of_mem hr0mem hr0u (hr0ty.trans rfl) ?_
      rw [hr0sch]
      exact dateOf_combine now (by norm_num) (by norm_num)
    unfold weeklyCategory
    rw [if_pos hw]
    simp [hex'']

theorem taskLoop_grows (user_id : String) (now : Timestamp) :
    ∀ (ts : List Task) (db : DB), Grows db (taskLoop user_id now ts db) := by
  intro ts
  induction ts with
  | nil => intro db; exact grows_refl db
  | cons t rest ih =>
    intro db
    unfold taskLoop
    cases hd : t.due_date with
    | none => exact ih db
    | some due =>
      by_cases hdays : (0 : Int) ≤ (due : Int) - (dateOf now : Int) ∧
          (due : Int) - (dateOf now : Int) ≤ 1
      · simp only [if_pos hdays]
        cases hex : existsTaskReminderToday db user_id t.id now with
        | true => exact ih db
        | false =>
          simp only [Bool.false_eq_true, if_false]
          exact grows_trans (queue_message_grows db now user_id _ _ _ _ _) (ih _)
      · simp only [if_neg hdays]
        exact ih db

theorem taskLoop_ensures (user_id : String) (now : Timestamp) :
    ∀ (ts : List Task) (db : DB) (t : Task) (due : Nat), t ∈ ts →
      t.due_date = some due →
      (0 : Int) ≤ (due : Int) - (dateOf now : Int) →
      (due : Int) - (dateOf now : Int) ≤ 1 →
      existsTaskReminderToday (taskLoop user_id now ts db) user_id t.id now = true := by
  intro ts
  induction ts with
  | nil => intro db t due hmem; exact absurd hmem (List.not_mem_nil t)
  | cons t0 rest ih =>
    intro db t due hmem hdue h0 h1
    rcases List.mem_cons.mp hmem with heq | hmem'
    · subst heq
      unfold taskLoop
      rw [hdue]
      have hdays : (0 : Int) ≤ (due : Int) - (dateOf now : Int) ∧
          (due : Int) - (dateOf now : Int) ≤ 1 := ⟨h0, h1⟩
      simp only [if_pos hdays]
      cases hex : existsTaskReminderToday db user_id t.id now with
      | true => exact existsTaskReminderToday_mono (taskLoop_grows user_id now rest db) hex
      | false =>
        simp only [Bool.false_eq_true, if_false]
        obtain ⟨r0, hr0mem, hr0u, hr0ty, hr0sch, hr0md⟩ :=
          queue_message_row_mem now user_id (generate_task_reminder now user_id t).type
            (generate_task_reminder now user_id t).priority
            (generate_task_reminder now user_id t).content
            (some (combine now 10 0)) (generate_task_reminder now user_id t).metadata
            (taskLoop_grows user_id now rest _)
        refine existsTaskReminderToday_of_mem hr0mem hr0u (hr0ty.trans rfl) ?_ ?_
        · rw [hr0md]
          exact likeContains_taskLikePattern t.id
        · rw [hr0sch]
          exact dateOf_combine now (by norm_num) (by norm_num)
    · unfold taskLoop
      cases hd0 : t0.due_date with
      | none => exact ih db t due hmem' hdue h0 h1
      | some due0 =>
        by_cases hdays0 : (0 : Int) ≤ (due0 : Int) - (dateOf now : Int) ∧
            (due0 : Int) - (dateOf now : Int) ≤ 1
        · simp only [if_pos hdays0]
          cases hex0 : existsTaskReminderToday db user_id t0.id now with
          | true => exact ih db t due hmem' hdue h0 h1
          | false =>
            simp only [Bool.false_eq_true, if_false]
            exact ih _ t due hmem' hdue h0 h1
        · simp only [if_neg hdays0]
          exact ih db t due hmem' hdue h0 h1

theorem taskLoop_noop (user_id : String) (now : Timestamp) :
    ∀ (ts : List Task) (db : DB),
      (∀ t ∈ ts, ∀ due : Nat, t.due_date = some due →
        (0 : Int) ≤ (due : Int) - (dateOf now : Int) →
        (due : Int) - (dateOf now : Int) ≤ 1 →
        existsTaskReminderToday db user_id t.id now = true) →
      taskLoop user_id now ts db = db := by
  intro ts
  induction ts with
  | nil => intro db _; rfl
  | cons t0 rest ih =>
    intro db hall
    unfold taskLoop
    cases hd0 : t0.due_date with
    | none => exact ih db (fun t ht => hall t (List.mem_cons_of_mem t0 ht))
    | some due0 =>
      by_cases hdays0 : (0 : Int) ≤ (due0 : Int) - (dateOf now : Int) ∧
          (due0 : Int) - (dateOf now : Int) ≤ 1
      · simp only [if_pos hdays0]
        have hex0 : existsTaskReminderToday db user_id t0.id now = true :=
          hall t0 (List.mem_cons_self t0 rest) due0 hd0 hdays0.1 hdays0.2
        simp only [hex0, if_true]
        exact ih db (fun t ht => hall t (List.mem_cons_of_mem t0 ht))
      · simp only [if_neg hdays0]
        exact ih db (fun t ht => hall t (List.mem_cons_of_mem t0 ht))

theorem taskCategory_error_eq {user_id : String} {env : Env} {now : Timestamp}
    {db db' : DB} {e : Err}
    (h : taskCategory user_id env now db = (.error e, db')) : db' = db := by
  rcases taskCategory_cases user_id env now db with ⟨e', _, hc⟩ | ⟨ts, _, hc⟩
  · exact (Prod.mk.inj (h.symm.trans hc)).2
  · exact absurd (Prod.mk.inj (h.symm.trans hc)).1 (by simp)

theorem taskCategory_grows {user_id : String} {env : Env} {now : Timestamp}
    {db : DB} {r : Except Err Unit} {db' : DB}
    (h : taskCategory user_id env now db = (r, db')) : Grows db db' := by
  rcases taskCategory_cases user_id env now db with ⟨e, _, hc⟩ | ⟨ts, _, hc⟩
  · rw [(Prod.mk.inj (h.symm.trans hc)).2]
    exact grows_refl db
  · rw [(Prod.mk.inj (h.symm.trans hc)).2]
    exact taskLoop_grows user_id now ts db

theorem taskCategory_ok_stable {user_id : String} {env : Env} {now : Timestamp}
    {db db' : DB}
    (h : taskCategory user_id env now db = (.ok (), db'))
    {db'' : DB} (hg : Grows db' db'') :
    taskCategory user_id env now db'' = (.ok (), db'') := by
  rcases taskCategory_cases user_id env now db with ⟨e, _, hc⟩ | ⟨ts, hts, hc⟩
  · exact absurd (Prod.mk.inj (h.symm.trans hc)).1 (by simp)
  · have hdb : taskLoop user_id now ts db = db' := (Prod.mk.inj (hc.symm.trans h)).2
    have hnoop : taskLoop user_id now ts db'' = db'' := by
      apply taskLoop_noop
      intro t ht due hdue h0 h1
      have hset : existsTaskReminderToday (taskLoop user_id now ts db) user_id t.id now
          = true := taskLoop_ensures user_id now ts db t due ht hdue h0 h1
      rw [hdb] at hset
      exact existsTaskReminderToday_mono hg hset
    unfold taskCategory
    rw [hts]
    simp [hnoop]

/-- C1: for every user, environment, simulated `now` and store, running the
daily sweep twice in immediate succession leaves the store (in particular
the queue) in exactly the state the first run produced: each category
either already finds its row for today (enqueued by the first run) and
skips, or fails at the very same point without writing, so the sweep
enqueues at most one row per kind — and per task — per calendar day. -/
theorem sweep_idempotent (user_id : String) (env : Env) (now : Timestamp) (db : DB) :
    (check_and_queue_daily_messages user_id env now
        (check_and_queue_daily_messages user_id env now db).2).2 =
      (check_and_queue_daily_messages user_id env now db).2 := by
  obtain ⟨rm, db1, hm⟩ :
      ∃ rm db1, morningCategory user_id (get_user_patterns db user_id) env now db
        = (rm, db1) := ⟨_, _, rfl⟩
  cases rm with
  | error em =>
    rw [morningCategory_error_eq hm] at hm
    have hS : check_and_queue_daily_messages user_id env now db = (.error em, db) := by
      unfold check_and_queue_daily_messages
      simp only [hm]
    rw [hS]
    show (check_and_queue_daily_messages user_id env now db).2 = db
    rw [hS]
  | ok um =>
    cases um
    obtain ⟨re, db2, he⟩ :
        ∃ re db2, eveningCategory user_id (get_user_patterns db user_id) env now db1
          = (re, db2) := ⟨_, _, rfl⟩
    have g1 : Grows db db1 := morningCategory_grows hm
    cases re with
    | error ee =>
      rw [eveningCategory_error_eq he] at he
      have hS : check_and_queue_daily_messages user_id env now db = (.error ee, db1) := by
        unfold check_and_queue_daily_messages
        simp only [hm, he]
      have hv1 : get_user_patterns db1 user_id = get_user_patterns db user_id :=
        get_user_patterns_congr g1.2.1 user_id
      have hm1 : morningCategory user_id (get_user_patterns db user_id) env now db1
          = (.ok (), db1) := morningCategory_ok_stable hm (grows_refl db1)
      have hS2 : check_and_queue_daily_messages user_id env now db1
          = (.error ee, db1) := by
        unfold check_and_queue_daily_messages
        simp only [hv1]
        simp only [hm1, he]
      rw [hS]
      show (check_and_queue_daily_messages user_id env now db1).2 = db1
      rw [hS2]
    | ok ue =>
      cases ue
      obtain ⟨db3, hw⟩ := weeklyCategory_ok_shape user_id now db2
      obtain ⟨rt, db4, ht⟩ :
          ∃ rt db4, taskCategory user_id env now db3 = (rt, db4) := ⟨_, _, rfl⟩
      have g2 : Grows db1 db2 := eveningCategory_grows he
      have g3 : Grows db2 db3 := weeklyCategory_grows hw
      cases rt with
      | error et =>
        rw [taskCategory_error_eq ht] at ht
        have hS : check_and_queue_daily_messages user_id env now db = (.error et, db3) := by
          unfold check_and_queue_daily_messages
          simp only [hm, he, hw, ht]
        have hv : get_user_patterns db3 user_id = get_user_patterns db user_id :=
          get_user_patterns_congr (grows_trans g1 (grows_trans g2 g3)).2.1 user_id
        have hm' : morningCategory user_id (get_user_patterns db user_id) env now db3
            = (.ok (), db3) := morningCategory_ok_stable hm (grows_trans g2 g3)
        have he' : eveningCategory user_id (get_user_patterns db user_id) env now db3
            = (.ok (), db3) := eveningCategory_ok_stable he g3
        have hw' : weeklyCategory user_id now db3 = (.ok (), db3) :=
          weeklyCategory_ok_stable hw (grows_refl db3)
        have hS2 : check_and_queue_daily_messages user_id env now db3
            = (.error et, db3) := by
          unfold check_and_queue_daily_messages
          simp only [hv]
          simp only [hm', he', hw', ht]
        rw [hS]
        show (check_and_queue_daily_messages user_id env now db3).2 = db3
        rw [hS2]
      | ok ut =>
        cases ut
        have g4 : Grows db3 db4 := taskCategory_grows ht
        have hS : check_and_queue_daily_messages user_id env now db = (.ok (), db4) := by
          unfold check_and_queue_daily_messages
          simp only [hm, he, hw, ht]
        have hv : get_user_patterns db4 user_id = get_user_patterns db user_id :=
          get_user_patterns_congr
            (grows_trans g1 (grows_trans g2 (grows_trans g3 g4))).2.1 user_id
        have hm' : morningCategory user_id (get_user_patterns db user_id) env now db4
            = (.ok (), db4) := morningCategory_ok_stable hm (grows_trans g2 (grows_trans g3 g4))
        have he' : eveningCategory user_id (get_user_patterns db user_id) env now db4
            = (.ok (), db4) := eveningCategory_ok_stable he (grows_trans g3 g4)
        have hw' : weeklyCategory user_id now db4 = (.ok (), db4) :=
          weeklyCategory_ok_stable hw g4
        have ht' : taskCategory user_id env now db4 = (.ok (), db4) :=
          taskCategory_ok_stable ht (grows_refl db4)
        have hS2 : check_and_queue_daily_messages user_id env now db4
            = (.ok (), db4) := by
          unfold check_and_queue_daily_messages
          simp only [hv]
          simp only [hm', he', hw', ht']
        rw [hS]
        show (check_and_queue_daily_messages user_id env now db4).2 = db4
        rw [hS2]

end PartnerAI
